import Mathlib

/-!
Verification of the tolerant tabular-data ingestion and column-normalization
pipeline of the Jojo_Stock inventory application
(`src/barcode_streamlit_app.py`).

The Python source is shallowly embedded as executable Lean definitions:

* a CSV file is modelled as its list of lines (each line without its
  trailing newline, exactly what `readlines` + `rstrip('\n')` produces),
  together with per-encoding decode functions (`SrcFile`);
* `pd.read_csv` is modelled for the comma-delimited, quote-free fragment the
  application exercises: the C engine (`readCsvC`) raises a parser error on
  rows with too many fields and pads short rows with NaN, the python engine
  with `on_bad_lines='warn'` (`readCsvPython`) drops over-long rows with a
  warning, both skip blank lines, convert pandas' default NA strings to NaN
  and infer an integer dtype for columns whose every entry is an integer
  literal (ASCII digits, optional sign);
* cells are `Cell.nan`, `Cell.str` or `Cell.int`, matching the NaN / object /
  integer dtypes the application actually produces;
* the manual row-reconstruction fallback (`reconstructLine`, `reconstruct`),
  column normalization (`normalize_column_names`), required-column check
  (`missing_columns`), and the barcode-scan update (`scan_barcode`) are
  translated line by line from the source.
-/

instance {α β : Type} [DecidableEq α] [DecidableEq β] : DecidableEq (Except α β) := fun a b =>
  match a, b with
  | Except.ok x, Except.ok y =>
    if h : x = y then isTrue (by rw [h]) else isFalse (by simp [h])
  | Except.error x, Except.error y =>
    if h : x = y then isTrue (by rw [h]) else isFalse (by simp [h])
  | Except.ok _, Except.error _ => isFalse (by simp)
  | Except.error _, Except.ok _ => isFalse (by simp)

/-- Python `str.strip()` whitespace test (ASCII whitespace). -/
def isPySpace (c : Char) : Bool :=
  c == ' ' || c == '\t' || c == '\n' || c == '\r' || c == '\x0b' || c == '\x0c'

/-- Python `str.strip()` on the character list. -/
def pyStripChars (l : List Char) : List Char :=
  ((l.dropWhile isPySpace).reverse.dropWhile isPySpace).reverse

/-- Python `str.strip()`. -/
def pyStrip (s : String) : String := ⟨pyStripChars s.data⟩

/-- Python `str.split(',')` on the character list: split at every comma,
keeping empty pieces; the empty string yields `[[]]`. -/
def splitCommaChars : List Char → List (List Char)
  | [] => [[]]
  | c :: cs =>
    let r := splitCommaChars cs
    if c == ',' then [] :: r else (c :: r.headD []) :: r.tail

/-- Python `str.split(',')`. -/
def splitComma (s : String) : List String :=
  (splitCommaChars s.data).map (fun l => (⟨l⟩ : String))

/-- Python `','.join` on character lists. -/
def joinCommaChars : List (List Char) → List Char
  | [] => []
  | [x] => x
  | x :: y :: xs => x ++ ',' :: joinCommaChars (y :: xs)

/-- Python `','.join`. -/
def joinComma (l : List String) : String := ⟨joinCommaChars (l.map String.data)⟩

/-- The ten ASCII digits. -/
def digitChars : List Char := ['0', '1', '2', '3', '4', '5', '6', '7', '8', '9']

/-- Value of a list of ASCII digits. -/
def digitsToNat (l : List Char) : Nat :=
  l.foldl (fun a c => a * 10 + (c.toNat - 48)) 0

/-- Whether a character list is an integer literal: optional single sign
followed by at least one ASCII digit (the fragment of Python/pandas integer
parsing the application's data exercises). -/
def intLikeChars (l : List Char) : Bool :=
  match l with
  | [] => false
  | c :: cs =>
    if c == '-' || c == '+' then !cs.isEmpty && cs.all (fun d => digitChars.contains d)
    else (c :: cs).all (fun d => digitChars.contains d)

/-- Whether a string is an integer literal. -/
def intLikeS (s : String) : Bool := intLikeChars s.data

/-- Integer value of an integer literal (junk value on other input). -/
def parseIntChars (l : List Char) : Int :=
  match l with
  | '-' :: cs => -(digitsToNat cs : Int)
  | '+' :: cs => (digitsToNat cs : Int)
  | _ => (digitsToNat l : Int)

/-- Integer value of an integer-literal string. -/
def parseIntS (s : String) : Int := parseIntChars s.data

/-- Strings `pd.read_csv` converts to NaN by default. -/
def naValues : List String :=
  ["", "#N/A", "#N/A N/A", "#NA", "-1.#IND", "-1.#INF", "-1.#QNAN", "-NaN",
   "-nan", "1.#IND", "1.#INF", "1.#QNAN", "<NA>", "N/A", "NA", "NULL", "NaN",
   "None", "n/a", "nan", "null"]

/-- A table cell: missing (NaN), text, or integer — the three cell states the
application's dataframes take. -/
inductive Cell where
  | nan : Cell
  | str (s : String) : Cell
  | int (n : Int) : Cell
deriving DecidableEq, Repr

/-- How `pd.read_csv` turns a raw field into a cell: default NA strings
become NaN, everything else stays text (before dtype inference). -/
def toCellRaw (s : String) : Cell :=
  if naValues.contains s then Cell.nan else Cell.str s

/-- How `DataFrame.to_csv` serializes a cell: NaN as the empty field, text
verbatim, integers in canonical decimal. -/
def writeCell : Cell → String
  | Cell.nan => ""
  | Cell.str s => s
  | Cell.int n => toString n

/-- Whether a value fits pandas' signed `int64` dtype. -/
def fitsInt64 (v : Int) : Bool :=
  decide (-9223372036854775808 ≤ v ∧ v ≤ 9223372036854775807)

/-- Whether a value fits pandas' unsigned `uint64` dtype. -/
def fitsUInt64 (v : Int) : Bool :=
  decide (0 ≤ v ∧ v ≤ 18446744073709551615)

/-- Whether a cell is a text cell holding an integer literal. -/
def cellIntLit : Cell → Bool
  | Cell.str s => intLikeS s
  | _ => false

/-- The integer value of a text cell holding an integer literal (junk on
other cells). -/
def cellIntVal : Cell → Int
  | Cell.str s => parseIntS s
  | _ => 0

/-- Integer-dtype conversion of a single cell. The conversion is bounded
the way pandas' integer dtypes are: a literal outside both the `int64` and
the `uint64` range is not stored exactly by any integer dtype (pandas falls
back to lossy `float64` there, which is outside this model and outside
every round-trip statement below). -/
def cellToInt : Cell → Cell
  | Cell.str s =>
    if intLikeS s && (fitsInt64 (parseIntS s) || fitsUInt64 (parseIntS s)) then
      Cell.int (parseIntS s)
    else Cell.str s
  | c => c

/-- Pad a parsed row on the right with NaN up to the expected width (what
`pd.read_csv` does with rows that have too few fields). -/
def padRow (e : Nat) (cells : List Cell) : List Cell :=
  cells ++ List.replicate (e - cells.length) Cell.nan

/-- An in-memory table: ordered column names and rows of cells. -/
structure Table where
  cols : List String
  rows : List (List Cell)
deriving DecidableEq, Repr

/-- Per-column integer-dtype flags: column `j` is converted when it is
nonempty, every entry is a text cell holding an integer literal, and the
column's values all fit `int64` or all fit `uint64` (`pd.read_csv` dtype
inference; a column overflowing both 64-bit dtypes falls back to lossy
`float64`, which is outside this model and never integer-converted here). -/
def colFlags (e : Nat) (rows : List (List Cell)) : List Bool :=
  (List.range e).map (fun j =>
    let col := rows.map (fun r => r.getD j Cell.nan)
    !col.isEmpty && (col.all cellIntLit &&
      (col.all (fun c => fitsInt64 (cellIntVal c)) ||
        col.all (fun c => fitsUInt64 (cellIntVal c)))))

/-- Apply per-column conversion flags to one row. -/
def applyFlags (flags : List Bool) (r : List Cell) : List Cell :=
  List.zipWith (fun b c => if b then cellToInt c else c) flags r

/-- Dtype inference over the whole table. -/
def inferTypes (t : Table) : Table :=
  ⟨t.cols, t.rows.map (applyFlags (colFlags t.cols.length t.rows))⟩

/-- Failure modes of the strict (`C` engine) parse relevant here:
`pd.errors.EmptyDataError` on a file with no content and
`pd.errors.ParserError` on a row with too many fields. -/
inductive ReadErr where
  | emptyData : ReadErr
  | parserError : ReadErr
deriving DecidableEq

/-- Strategy 1, `pd.read_csv(file_path, encoding=enc)` (C engine) on the
decoded lines: skip blank lines, error if no line remains, take the first
line as header, raise `ParserError` if any data row has more fields than the
header, pad short rows with NaN, convert NA strings, infer integer columns. -/
def readCsvC (lines : List String) : Except ReadErr Table :=
  let content := lines.filter (fun l => !(l == ""))
  if content.isEmpty then Except.error ReadErr.emptyData
  else
    let cols := splitComma (content.headD "")
    let e := cols.length
    let dataLines := content.tail
    if dataLines.any (fun ln => e < (splitComma ln).length) then
      Except.error ReadErr.parserError
    else
      Except.ok (inferTypes ⟨cols, dataLines.map (fun ln => padRow e ((splitComma ln).map toCellRaw))⟩)

/-- Strategy 2, `pd.read_csv(..., engine='python', sep=',',
on_bad_lines='warn')`: like strategy 1 but rows with too many fields are
dropped (each with a warning) instead of failing the load; returns the table
and the number of dropped rows. Fails only when the file has no content. -/
def readCsvPython (lines : List String) : Option (Table × Nat) :=
  let content := lines.filter (fun l => !(l == ""))
  if content.isEmpty then none
  else
    let cols := splitComma (content.headD "")
    let e := cols.length
    let dataLines := content.tail
    let good := dataLines.filter (fun ln => (splitComma ln).length ≤ e)
    some (inferTypes ⟨cols, good.map (fun ln => padRow e ((splitComma ln).map toCellRaw))⟩,
          dataLines.length - good.length)

/-- Strategy 3's per-line row reconstruction (`barcode_streamlit_app.py`
lines 89–120): a line with exactly `expected` fields is kept; with more
fields, field 0 is kept, the last `expected - 2` fields (clamped at 0, like
the `num_trailing < 0` guard) are kept as trailing columns and the middle
fields are rejoined with `','` and stripped; with fewer fields the row is
right-padded with empty strings. -/
def reconstructLine (expected : Nat) (ln : String) : List String :=
  let parts := splitComma ln
  if parts.length == expected then parts
  else if expected < parts.length then
    let numTrailing := expected - 2
    let barcode := parts.headD ""
    let trailing := if 0 < numTrailing then parts.drop (parts.length - numTrailing) else []
    let nameParts :=
      if 0 < numTrailing then (parts.take (parts.length - numTrailing)).drop 1
      else parts.drop 1
    let name := pyStrip (joinComma nameParts)
    let newRow := [barcode, name] ++ trailing
    newRow ++ List.replicate (expected - newRow.length) ""
  else parts ++ List.replicate (expected - parts.length) ""

/-- Strategy 3, manual reconstruction (lines 74–124): fails on an empty
file; strips and splits the header; reconstructs every data line (blank
lines included — the source iterates `lines[1:]` unfiltered); building the
dataframe fails when a reconstructed row's width differs from the header's
(the `pd.DataFrame(..., columns=...)` shape check). All cells stay text —
this path performs no NA conversion and no dtype inference. Returns the
table and the repaired-line count the source reports via `st.info`. -/
def reconstruct (lines : List String) : Option (Table × Nat) :=
  if lines.isEmpty then none
  else
    let cols := (splitComma (pyStrip (lines.headD ""))).map pyStrip
    let e := cols.length
    let dataLines := lines.tail
    let rows := dataLines.map (reconstructLine e)
    if rows.all (fun r => r.length == e) then
      some (⟨cols, rows.map (fun r => r.map Cell.str)⟩,
            (dataLines.filter (fun ln => e < (splitComma ln).length)).length)
    else none

/-- A source file: its path and, per encoding name, the strict decode of its
bytes into lines (`none` models `UnicodeDecodeError`) and the
`errors='replace'` decode (which never fails). -/
structure SrcFile where
  path : String
  decodeStrict : String → Option (List String)
  decodeReplace : String → List String

/-- A file whose bytes decode to the same lines under every encoding
(e.g. pure ASCII content). -/
def mkFile (p : String) (lines : List String) : SrcFile :=
  ⟨p, fun _ => some lines, fun _ => lines⟩

/-- The encoding candidates, in the source's priority order (line 55). -/
def encodings : List String :=
  ["windows-1256", "utf-8", "cp1256", "iso-8859-6", "latin1", "cp1252"]

/-- The message of the exception raised when every encoding/strategy
combination fails (line 133 of the source, verbatim). -/
def unreadableMsg : String :=
  "Could not read the CSV file with any supported encoding or parsing strategy"

/-- The only error `read_csv_with_encoding` ever raises to its caller. -/
inductive LoadError where
  | unreadable (msg : String) : LoadError
deriving DecidableEq

/-- One iteration of the encoding loop (lines 57–131): strict parse; on
`UnicodeDecodeError` or a non-parser error give up on this encoding; on
`ParserError` fall back to the tolerant python-engine parse, then to manual
reconstruction. The second component is the repaired-row count, reported
only when reconstruction produced the table. -/
def attemptEncoding (f : SrcFile) (enc : String) : Option (Table × Option Nat) :=
  match f.decodeStrict enc with
  | none => none
  | some lines =>
    match readCsvC lines with
    | Except.ok t => some (t, none)
    | Except.error ReadErr.parserError =>
      match readCsvPython lines with
      | some (t, _) => some (t, none)
      | none =>
        match reconstruct (f.decodeReplace enc) with
        | some (t, repaired) => some (t, some repaired)
        | none => none
    | Except.error ReadErr.emptyData => none

/-- The encoding loop itself. -/
def readLoop (f : SrcFile) : List String → Except LoadError (Table × Option Nat)
  | [] => Except.error (LoadError.unreadable unreadableMsg)
  | enc :: rest =>
    match attemptEncoding f enc with
    | some r => Except.ok r
    | none => readLoop f rest

/-- `read_csv_with_encoding` (lines 52–133): try each encoding with the
escalating strategies; raise the fixed-message exception if all fail. -/
def read_csv_with_encoding (f : SrcFile) : Except LoadError (Table × Option Nat) :=
  readLoop f encodings

/-- `save_inventory_data` / `df.to_csv(..., index=False)`, restricted to
cells needing no quoting: header then one comma-joined line per row. The
`encoding='windows-1256'` argument fixes the byte-level encoding and does
not change any cell value. -/
def writeCsv (t : Table) : List String :=
  joinComma t.cols :: t.rows.map (fun r => joinComma (r.map writeCell))

/-- The normalized key of a column name: lowercase, spaces and underscores
removed (`col.lower().replace(' ', '').replace('_', '')`, ASCII fragment). -/
def normKeyChars (l : List Char) : List Char :=
  (l.map Char.toLower).filter (fun c => !(c == ' ' || c == '_'))

/-- The normalized key of a column name. -/
def normKey (s : String) : String := ⟨normKeyChars s.data⟩

/-- Python-dict insertion on an insertion-ordered association list: an
existing key has its value replaced in place, a new key is appended. -/
def dictInsert (m : List (String × String)) (k v : String) : List (String × String) :=
  if m.any (fun p => p.1 == k) then
    m.map (fun p => if p.1 == k then (k, v) else p)
  else m ++ [(k, v)]

/-- Python-dict lookup. -/
def dictLookup (m : List (String × String)) (k : String) : Option String :=
  (m.find? (fun p => p.1 == k)).map Prod.snd

/-- `normalize_column_names` (lines 136–142): build the normalized-key →
original-name dict, in column order, later columns overwriting earlier ones
whose names normalize to the same key. -/
def normalize_column_names (cols : List String) : List (String × String) :=
  cols.foldl (fun m c => dictInsert m (normKey c) c) []

/-- The required-column check of `single_scan_mode` (line 179): the required
keys absent from the mapping, in the required order. -/
def missing_columns (mapping : List (String × String)) (required : List String) : List String :=
  required.filter (fun k => !(mapping.any (fun p => p.1 == k)))

/-- The spec's `resolve_required_columns`: the original names of the
required keys, or a `MissingColumns` error listing every absent key
(lines 177–183). -/
def resolve_required_columns (mapping : List (String × String)) (required : List String) :
    Except (List String) (List String) :=
  let m := missing_columns mapping required
  if m.isEmpty then Except.ok (required.filterMap (dictLookup mapping)) else Except.error m

/-- Errors of the scan workflow. -/
inductive ScanError where
  | missingColumns (keys : List String) : ScanError
  | keyNotFound : ScanError
deriving DecidableEq

/-- Python `str()` of a cell, as `Series.astype(str)` produces it: NaN
becomes the string `"nan"`. -/
def cellStr : Cell → String
  | Cell.nan => "nan"
  | Cell.str s => s
  | Cell.int n => toString n

/-- `astype(str)` on one cell. -/
def astypeStr (c : Cell) : Cell := Cell.str (cellStr c)

/-- `pd.isna` on one cell. -/
def pdIsna : Cell → Bool
  | Cell.nan => true
  | _ => false

/-- Python `int(str)` (ASCII fragment): strip whitespace, then an optional
sign and digits; anything else raises (modelled as `none`). -/
def pyParseInt (s : String) : Option Int :=
  let t := pyStrip s
  if intLikeS t then some (parseIntS t) else none

/-- Python `int(cell)`: integers are themselves, text is parsed. NaN is
checked by `pd.isna` before this is reached. -/
def cellParseInt : Cell → Option Int
  | Cell.nan => none
  | Cell.int n => some n
  | Cell.str s => pyParseInt s

/-- The new-quantity computation of both scan modes (lines 232–239 and
335–342): 1 when the current cell is NaN, current + 1 when `int(...)`
succeeds, 1 when it raises. -/
def nextQty (c : Cell) : Int :=
  if pdIsna c then 1
  else
    match cellParseInt c with
    | some n => n + 1
    | none => 1

/-- Index of a column name in the header (first occurrence; names resolved
via the mapping always occur). -/
def colIdx (cols : List String) (name : String) : Nat :=
  cols.findIdx (fun c => c == name)

/-- The dataframe update of `single_scan_mode` (lines 174–241): resolve the
four required columns via the normalized mapping, coerce the whole barcode
column to strings, find the rows matching the scanned barcode, fail with
`KeyNotFound` if none, else compute the new quantity from the first match
and write it to every matching row. -/
def scan_barcode (t : Table) (input : String) : Except ScanError Table :=
  let mapping := normalize_column_names t.cols
  match dictLookup mapping "barcode", dictLookup mapping "name",
        dictLookup mapping "qty", dictLookup mapping "qtynew" with
  | some bName, some _, some _, some qnName =>
    let bj := colIdx t.cols bName
    let qj := colIdx t.cols qnName
    let rows1 := t.rows.map (fun r => r.set bj (astypeStr (r.getD bj Cell.nan)))
    let isMatch := fun (r : List Cell) => r.getD bj Cell.nan == Cell.str input
    if rows1.all (fun r => !(isMatch r)) then Except.error ScanError.keyNotFound
    else
      let cur := ((rows1.filter isMatch).headD []).getD qj Cell.nan
      let newv := nextQty cur
      Except.ok ⟨t.cols, rows1.map (fun r => if isMatch r then r.set qj (Cell.int newv) else r)⟩
  | _, _, _, _ =>
    Except.error (ScanError.missingColumns (missing_columns mapping ["barcode", "name", "qty", "qtynew"]))

/-- The dataframe update of `continuous_scan_mode` (lines 286–344); its
row-matching and quantity logic is textually identical to the single-scan
mode's. -/
def continuous_scan_step (t : Table) (input : String) : Except ScanError Table :=
  scan_barcode t input

/-- The scan workflow as seen through the persisted file: on success the
updated table is saved, on any error the save is skipped and the persisted
table is the original. -/
def scanPersist (t : Table) (input : String) : Table × Option ScanError :=
  match scan_barcode t input with
  | Except.ok t2 => (t2, none)
  | Except.error e => (t, some e)

/-- The sample inventory created by `file_management` (lines 496–503), as
loaded back from `inventory.csv`, with `k` as the test row's `Qty_new`:
numeric columns are integer-inferred, names stay text. -/
def sampleTbl (k : Int) : Table :=
  ⟨["Barcode", "Name", "Qty", "Qty_new"],
   [[Cell.int 123456789, Cell.str "منتج أ", Cell.int 10, Cell.int 0],
    [Cell.int 987654321, Cell.str "منتج ب", Cell.int 5, Cell.int 0],
    [Cell.int 555555555, Cell.str "منتج ج", Cell.int 20, Cell.int 0],
    [Cell.int 111111111, Cell.str "منتج د", Cell.int 15, Cell.int 0],
    [Cell.int 39200, Cell.str "منتج اختبار", Cell.int 8, Cell.int k]]⟩

/-- One full scan cycle through the file, as the app performs it: scan,
save the dataframe to `inventory.csv`, and reload it for the next scan. -/
def scanThenReload (t : Table) (input : String) : Option Table :=
  match scan_barcode t input with
  | Except.ok t2 =>
    match read_csv_with_encoding (mkFile "inventory.csv" (writeCsv t2)) with
    | Except.ok (t3, _) => some t3
    | Except.error _ => none
  | Except.error _ => none

/-- The empty inventory file: zero bytes decode (to no lines) under every
candidate encoding. -/
def emptyFile : SrcFile := mkFile "inventory.csv" []

theorem getD_set_same (l : List Cell) (i : Nat) (a d : Cell) :
    (l.set i a).getD i d = if i < l.length then a else d := by
  induction l generalizing i with
  | nil => simp [List.set]
  | cons x xs ih =>
    cases i with
    | zero => simp
    | succ n =>
      simp only [List.set, List.getD_cons_succ, List.length_cons]
      rw [ih]
      simp [Nat.succ_lt_succ_iff]

/-! ## C1: width of rows produced by strategy 3 -/

/-- C1 (counterexample): with a one-column header, strategy 3 turns the
over-long line `"x,y"` into a two-field row, so the claim that every
reconstructed row has exactly the header's field count fails at `E = 1`. -/
theorem C1_counterexample : (reconstructLine 1 "x,y").length ≠ 1 := by decide

/-- C1 (amended): for every header with at least two fields, every row
produced by strategy 3's reconstruction has exactly the header's field
count — over-long rows are repaired and short rows right-padded. -/
theorem C1_reconstructed_width (e : Nat) (ln : String) (he : 2 ≤ e) :
    (reconstructLine e ln).length = e := by
  by_cases h1 : (splitComma ln).length = e
  · simp [reconstructLine, h1]
  · by_cases h2 : e < (splitComma ln).length
    · by_cases h3 : 0 < e - 2
      · simp [reconstructLine, h1, h2, h3]
        omega
      · simp [reconstructLine, h1, h2, h3]
        omega
    · simp [reconstructLine, h1, h2]
      omega

/-- C1 (witness): the repaired five-field line under a four-column header
has exactly four fields. -/
theorem C1_witness : 2 ≤ 4 ∧ (reconstructLine 4 "1,a,b,2,3").length = 4 :=
  ⟨by decide, C1_reconstructed_width 4 "1,a,b,2,3" (by decide)⟩

/-! ## C4: shape of the repaired over-long row -/

/-- C4 (counterexample): the source strips the rejoined free-text field
(`','.join(name_parts).strip()`), so for the line `"1, a ,b,2,3"` under a
four-field header the reconstructed field is `"a ,b"`, not the plain
delimiter-join `" a ,b"` of the middle fields that the claim demands. -/
theorem C4_counterexample :
    reconstructLine 4 "1, a ,b,2,3" = ["1", "a ,b", "2", "3"] ∧
    joinComma (((splitComma "1, a ,b,2,3").take 3).drop 1) = " a ,b" ∧
    reconstructLine 4 "1, a ,b,2,3" ≠
      (splitComma "1, a ,b,2,3").take 1
        ++ [joinComma (((splitComma "1, a ,b,2,3").take 3).drop 1)]
        ++ (splitComma "1, a ,b,2,3").drop 3 := by
  refine ⟨by decide, by decide, by decide⟩

/-- C4 (amended): for every data line with more fields than a header of at
least two fields, strategy 3 keeps field 0, keeps the last `E - 2` fields as
the trailing columns, and the free-text field is the middle fields rejoined
with the delimiter and then stripped of surrounding whitespace. -/
theorem C4_overlong_row (e : Nat) (ln : String) (he : 2 ≤ e)
    (hl : e < (splitComma ln).length) :
    reconstructLine e ln =
      (splitComma ln).take 1
        ++ [pyStrip (joinComma (((splitComma ln).take ((splitComma ln).length - (e - 2))).drop 1))]
        ++ (splitComma ln).drop ((splitComma ln).length - (e - 2)) := by
  have hne : splitComma ln ≠ [] := by
    intro h
    rw [h] at hl
    simp at hl
  have htake1 : (splitComma ln).take 1 = [(splitComma ln).headD ""] := by
    cases hsp : splitComma ln with
    | nil => exact absurd hsp hne
    | cons a as => simp
  have h1 : ¬((splitComma ln).length = e) := by omega
  by_cases h3 : 0 < e - 2
  · have hdlen : ((splitComma ln).drop ((splitComma ln).length - (e - 2))).length = e - 2 := by
      rw [List.length_drop]
      omega
    simp only [reconstructLine, beq_iff_eq, h1, if_false, hl, if_true, h3, htake1]
    have hrow : 2 + ((splitComma ln).drop ((splitComma ln).length - (e - 2))).length = e := by
      omega
    simp [hrow]
    omega
  · have he2 : e = 2 := by omega
    subst he2
    simp only [reconstructLine, beq_iff_eq, h1, if_false, hl, if_true, h3, htake1]
    simp

/-- C4 (witness): the repaired row for `"1,a,b,2,3"` under a four-field
header, in the shape the amended claim describes. -/
theorem C4_witness :
    reconstructLine 4 "1,a,b,2,3" =
      (splitComma "1,a,b,2,3").take 1
        ++ [pyStrip (joinComma (((splitComma "1,a,b,2,3").take ((splitComma "1,a,b,2,3").length - 2)).drop 1))]
        ++ (splitComma "1,a,b,2,3").drop ((splitComma "1,a,b,2,3").length - 2) :=
  C4_overlong_row 4 "1,a,b,2,3" (by decide) (by decide)

/-! ## C10: the new-quantity computation -/

/-- C10: in both scan modes the new quantity is 1 when the current cell is
missing (NaN) or does not parse as an integer, and is the parsed value plus
one exactly when parsing succeeds. Both modes' updates
(`scan_barcode`, `continuous_scan_step`) compute the value with `nextQty`. -/
theorem C10_next_qty (c : Cell) :
    (pdIsna c = true → nextQty c = 1) ∧
    (cellParseInt c = none → nextQty c = 1) ∧
    (∀ n : Int, cellParseInt c = some n → nextQty c = n + 1) := by
  refine ⟨?_, ?_, ?_⟩
  · intro h
    cases c <;> simp_all [pdIsna, nextQty]
  · intro h
    cases c <;> simp_all [cellParseInt, nextQty, pdIsna]
  · intro n h
    cases c <;> simp_all [cellParseInt, nextQty, pdIsna]

/-- C10 (witness): a missing cell and the unparseable cell `"x"` both reset
the quantity to 1, while the integer cell 4 is incremented to 5. -/
theorem C10_witness :
    nextQty Cell.nan = 1 ∧ nextQty (Cell.str "x") = 1 ∧ nextQty (Cell.int 4) = 5 :=
  ⟨(C10_next_qty Cell.nan).1 (by decide),
   (C10_next_qty (Cell.str "x")).2.1 (by decide),
   (C10_next_qty (Cell.int 4)).2.2 4 (by decide)⟩

/-! ## C9: five sequential scans of barcode 39200 on the sample table -/

/-- C9: the sample inventory written by `file_management` loads as
`sampleTbl 0`, and each scan of barcode `"39200"` (update, save, reload)
takes `sampleTbl k` to `sampleTbl (k+1)` — the tables differ only in the
scanned row's `Qty_new` cell, so after each scan every other row is
unchanged and after five scans `Qty_new` is 5. -/
theorem C9_scan_five_times :
    read_csv_with_encoding (mkFile "inventory.csv" (writeCsv (sampleTbl 0))) =
      Except.ok (sampleTbl 0, none) ∧
    scanThenReload (sampleTbl 0) "39200" = some (sampleTbl 1) ∧
    scanThenReload (sampleTbl 1) "39200" = some (sampleTbl 2) ∧
    scanThenReload (sampleTbl 2) "39200" = some (sampleTbl 3) ∧
    scanThenReload (sampleTbl 3) "39200" = some (sampleTbl 4) ∧
    scanThenReload (sampleTbl 4) "39200" = some (sampleTbl 5) := by
  refine ⟨by decide, by decide, by decide, by decide, by decide, by decide⟩

/-! ## C5: the all-strategies-exhausted error -/

set_option maxRecDepth 10000 in
/-- C5 (counterexample): the empty file decodes under every candidate
encoding yet defeats every strategy, and the exception raised is the fixed
message of source line 133, which contains neither the file path
`inventory.csv` nor any of the attempted encoding names. -/
theorem C5_counterexample :
    read_csv_with_encoding emptyFile = Except.error (LoadError.unreadable unreadableMsg) ∧
    ¬(emptyFile.path.data <:+: unreadableMsg.data) ∧
    (∀ enc ∈ encodings, ¬(enc.data <:+: unreadableMsg.data)) := by
  refine ⟨by decide, by decide, by decide⟩

/-- C5 (amended): whenever every encoding candidate exhausts all three
strategies, `read_csv_with_encoding` raises an error carrying the fixed
message "Could not read the CSV file with any supported encoding or parsing
strategy" — a constant that names neither the path nor the encodings. -/
theorem C5_exhausted_fixed_error (f : SrcFile)
    (h : ∀ enc ∈ encodings, attemptEncoding f enc = none) :
    read_csv_with_encoding f = Except.error (LoadError.unreadable unreadableMsg) := by
  have hgen : ∀ l : List String, (∀ enc ∈ l, attemptEncoding f enc = none) →
      readLoop f l = Except.error (LoadError.unreadable unreadableMsg) := by
    intro l
    induction l with
    | nil => intro _; rfl
    | cons e rest ih =>
      intro hl
      have he := hl e (List.mem_cons_self e rest)
      simp only [readLoop, he]
      exact ih (fun enc henc => hl enc (List.mem_cons_of_mem e henc))
  exact hgen encodings h

/-- C5 (witness): the empty file exhausts every encoding and strategy, and
the amended theorem yields the fixed-message error for it. -/
theorem C5_witness :
    read_csv_with_encoding emptyFile = Except.error (LoadError.unreadable unreadableMsg) :=
  C5_exhausted_fixed_error emptyFile (by decide)

/-! ## C2: no raise on decodable input -/

/-- C2 (counterexample): the empty file decodes under the candidate
encoding `windows-1256` (indeed under all of them), yet `load_table` fails
on it instead of producing a table — refuting the claim that the load never
raises on decodable input. -/
theorem C2_counterexample :
    emptyFile.decodeStrict "windows-1256" = some [] ∧
    "windows-1256" ∈ encodings ∧
    read_csv_with_encoding emptyFile = Except.error (LoadError.unreadable unreadableMsg) := by
  refine ⟨rfl, by decide, by decide⟩

/-- C2 (amended): on every file that decodes under some candidate encoding
to lines with at least one non-blank line (and, within this quote-free
model, contains no quote character), the load never raises: some strategy
under some encoding produces a table. Malformed rows are repaired, padded,
or dropped with a per-line warning, and the repaired-row count accompanies
a table produced by reconstruction. -/
theorem C2_decodable_no_raise (f : SrcFile) (enc : String) (lines : List String)
    (henc : enc ∈ encodings)
    (hdec : f.decodeStrict enc = some lines)
    (hnb : lines.filter (fun l => !(l == "")) ≠ [])
    (_hq : ∀ l ∈ lines, ∀ c ∈ l.data, c ≠ '"') :
    ∃ r, read_csv_with_encoding f = Except.ok r := by
  have hie : (lines.filter (fun l => !(l == ""))).isEmpty = false := by
    cases hfl : lines.filter (fun l => !(l == "")) with
    | nil => exact absurd hfl hnb
    | cons a as => rfl
  have hCne : readCsvC lines ≠ Except.error ReadErr.emptyData := by
    unfold readCsvC
    simp only [hie, Bool.false_eq_true, if_false]
    split <;> simp
  have hPne : readCsvPython lines ≠ none := by
    unfold readCsvPython
    simp only [hie, Bool.false_eq_true, if_false]
    simp
  have hatt : attemptEncoding f enc ≠ none := by
    unfold attemptEncoding
    rw [hdec]
    cases hC : readCsvC lines with
    | ok t => simp [hC]
    | error err =>
      cases err with
      | emptyData => exact absurd hC hCne
      | parserError =>
        cases hP : readCsvPython lines with
        | none => exact absurd hP hPne
        | some p =>
          cases p with
          | mk t n => simp [hC, hP]
  have hloop : ∀ l : List String, enc ∈ l → ∃ r, readLoop f l = Except.ok r := by
    intro l
    induction l with
    | nil => intro h; exact absurd h (List.not_mem_nil enc)
    | cons e rest ih =>
      intro hmem
      cases hA : attemptEncoding f e with
      | some r => exact ⟨r, by simp [readLoop, hA]⟩
      | none =>
        have henc2 : enc ∈ rest := by
          rcases List.mem_cons.mp hmem with h | h
          · rw [h] at hatt
            exact absurd hA hatt
          · exact h
        obtain ⟨r, hr⟩ := ih henc2
        exact ⟨r, by simp [readLoop, hA, hr]⟩
  exact hloop encodings henc

/-- C2 (witness): a decodable file with a malformed (over-long) data row is
loaded without raising. -/
theorem C2_witness :
    ∃ r, read_csv_with_encoding (mkFile "inventory.csv" ["A,B", "1,2,3"]) = Except.ok r :=
  C2_decodable_no_raise (mkFile "inventory.csv" ["A,B", "1,2,3"]) "windows-1256"
    ["A,B", "1,2,3"] (by decide) rfl (by decide) (by decide)

/-! ## C8: KeyNotFound leaves the persisted table unmodified -/

/-- C8: whenever the four required columns resolve but no row's key-column
value (compared as strings, after the `astype(str)` coercion) equals the
scanned value, the scan fails with `KeyNotFound` and the persisted table is
exactly the input table — the save step is never reached. -/
theorem C8_key_not_found (t : Table) (input : String)
    (bName nName qName qnName : String)
    (hb : dictLookup (normalize_column_names t.cols) "barcode" = some bName)
    (hn : dictLookup (normalize_column_names t.cols) "name" = some nName)
    (hq : dictLookup (normalize_column_names t.cols) "qty" = some qName)
    (hqn : dictLookup (normalize_column_names t.cols) "qtynew" = some qnName)
    (hmiss : ∀ r ∈ t.rows, cellStr (r.getD (colIdx t.cols bName) Cell.nan) ≠ input) :
    scanPersist t input = (t, some ScanError.keyNotFound) := by
  have hall : (t.rows.map (fun r =>
      r.set (colIdx t.cols bName) (astypeStr (r.getD (colIdx t.cols bName) Cell.nan)))).all
      (fun r => !(r.getD (colIdx t.cols bName) Cell.nan == Cell.str input)) = true := by
    rw [List.all_eq_true]
    intro r hr
    rw [List.mem_map] at hr
    obtain ⟨r0, hr0, rfl⟩ := hr
    rw [getD_set_same]
    by_cases hlt : colIdx t.cols bName < r0.length
    · rw [if_pos hlt]
      have hcs := hmiss r0 hr0
      simp only [astypeStr]
      simp only [List.getD, List.get?_eq_getElem?] at hcs ⊢
      simp [hcs]
    · rw [if_neg hlt]
      simp
  unfold scanPersist scan_barcode
  simp only [hb, hn, hq, hqn, hall]
  simp

/-- C8 (witness): scanning the absent barcode `"99999"` on the sample table
fails with `KeyNotFound` and persists the table unchanged. -/
theorem C8_witness :
    scanPersist (sampleTbl 0) "99999" = (sampleTbl 0, some ScanError.keyNotFound) :=
  C8_key_not_found (sampleTbl 0) "99999" "Barcode" "Name" "Qty" "Qty_new"
    (by decide) (by decide) (by decide) (by decide) (by decide)

/-! ## C7: MissingColumns names all absent keys -/

/-- C7: a required key is reported missing exactly when it is absent from
the column-name map (so all absent keys are reported, in required order,
not just the first); when any key is missing the resolution fails with
exactly that list; and for a table with only `Barcode` and `Name` the error
names exactly `qty` and `qtynew`. -/
theorem C7_missing_all_absent :
    (∀ (mapping : List (String × String)) (required : List String) (k : String),
        k ∈ missing_columns mapping required ↔ k ∈ required ∧ dictLookup mapping k = none) ∧
    (∀ (mapping : List (String × String)) (required : List String),
        missing_columns mapping required ≠ [] →
        resolve_required_columns mapping required = Except.error (missing_columns mapping required)) ∧
    resolve_required_columns (normalize_column_names ["Barcode", "Name"]) ["barcode", "name", "qty", "qtynew"]
      = Except.error ["qty", "qtynew"] := by
  refine ⟨?_, ?_, by decide⟩
  · intro mapping required k
    unfold missing_columns dictLookup
    rw [List.mem_filter]
    constructor
    · rintro ⟨h1, h2⟩
      refine ⟨h1, ?_⟩
      rw [Option.map_eq_none', List.find?_eq_none]
      intro p hp
      simp only [Bool.not_eq_true'] at h2
      rw [List.any_eq_false] at h2
      exact fun hc => by simpa [hc] using h2 p hp
    · rintro ⟨h1, h2⟩
      refine ⟨h1, ?_⟩
      rw [Option.map_eq_none', List.find?_eq_none] at h2
      simp only [Bool.not_eq_true']
      rw [List.any_eq_false]
      intro p hp
      simpa using h2 p hp
  · intro mapping required h
    unfold resolve_required_columns
    rw [if_neg]
    simp [List.isEmpty_iff, h]

/-- C7 (witness): with only a `Barcode` column, the required keys `barcode`
and `qty` resolve to an error naming exactly the absent keys. -/
theorem C7_witness :
    resolve_required_columns (normalize_column_names ["Barcode"]) ["barcode", "qty"] =
      Except.error (missing_columns (normalize_column_names ["Barcode"]) ["barcode", "qty"]) :=
  C7_missing_all_absent.2.1 (normalize_column_names ["Barcode"]) ["barcode", "qty"] (by decide)

/-! ## C6: the normalized column-name map -/

theorem dictInsert_keys (m : List (String × String)) (k v : String) :
    (dictInsert m k v).map Prod.fst =
      if m.any (fun p => p.1 == k) then m.map Prod.fst else m.map Prod.fst ++ [k] := by
  unfold dictInsert
  split
  · rw [List.map_map]
    apply List.map_congr_left
    intro p hp
    by_cases hpk : p.1 = k
    · simp [hpk]
    · simp [hpk]
  · simp

theorem dictInsert_keys_nodup (m : List (String × String)) (k v : String)
    (h : (m.map Prod.fst).Nodup) : ((dictInsert m k v).map Prod.fst).Nodup := by
  rw [dictInsert_keys]
  split
  · exact h
  · next hany =>
    rw [List.nodup_append]
    refine ⟨h, List.nodup_singleton k, ?_⟩
    intro x hx
    simp only [List.mem_singleton]
    intro hxk
    rw [hxk] at hx
    rw [List.mem_map] at hx
    obtain ⟨p, hp, hpk⟩ := hx
    rw [Bool.not_eq_true, List.any_eq_false] at hany
    exact absurd (by simp [hpk]) (hany p hp)

theorem dict_replace_noop (m : List (String × String)) (k v : String)
    (h : ∀ p ∈ m, p.1 ≠ k) :
    m.map (fun p => if p.1 == k then (k, v) else p) = m := by
  calc m.map (fun p => if p.1 == k then (k, v) else p)
      = m.map id := List.map_congr_left (fun p hp => by rw [if_neg (by simpa using h p hp)]; rfl)
    _ = m := List.map_id m

theorem dictLookup_insert (m : List (String × String)) (k v k2 : String) :
    dictLookup (dictInsert m k v) k2 = if k2 = k then some v else dictLookup m k2 := by
  by_cases hk2 : k2 = k
  · subst hk2
    rw [if_pos rfl]
    unfold dictInsert dictLookup
    by_cases hany : m.any (fun p => p.1 == k2)
    · rw [if_pos hany]
      induction m with
      | nil => simp at hany
      | cons p ps ih =>
        by_cases hpk : p.1 = k2
        · rw [List.map_cons, if_pos (by simpa using hpk)]
          rw [List.find?_cons_of_pos _ (by simp)]
          rfl
        · have hrest : ps.any (fun q => q.1 == k2) = true := by
            rw [List.any_cons] at hany
            simpa [hpk] using hany
          rw [List.map_cons, if_neg (by simpa using hpk)]
          rw [List.find?_cons_of_neg _ (by simpa using hpk)]
          exact ih hrest
    · rw [if_neg hany]
      rw [Bool.not_eq_true, List.any_eq_false] at hany
      rw [List.find?_append]
      have hm : m.find? (fun p => p.1 == k2) = none := by
        rw [List.find?_eq_none]
        intro p hp
        simpa using hany p hp
      rw [hm, List.find?_cons_of_pos _ (by simp)]
      rfl
  · rw [if_neg hk2]
    unfold dictInsert dictLookup
    by_cases hany : m.any (fun p => p.1 == k)
    · rw [if_pos hany]
      clear hany
      induction m with
      | nil => simp
      | cons p ps ih =>
        by_cases hpk : p.1 = k
        · rw [List.map_cons, if_pos (by simpa using hpk)]
          rw [List.find?_cons_of_neg _ (by simpa using fun h => hk2 h.symm)]
          rw [List.find?_cons_of_neg _ (by simp only [hpk]; simpa using fun h => hk2 h.symm)]
          exact ih
        · rw [List.map_cons, if_neg (by simpa using hpk)]
          by_cases hpk2 : p.1 = k2
          · rw [List.find?_cons_of_pos _ (by simpa using hpk2),
                List.find?_cons_of_pos _ (by simpa using hpk2)]
          · rw [List.find?_cons_of_neg _ (by simpa using hpk2),
                List.find?_cons_of_neg _ (by simpa using hpk2)]
            exact ih
    · rw [if_neg hany]
      rw [List.find?_append]
      have hone : List.find? (fun p => p.1 == k2) [(k, v)] = none := by
        rw [List.find?_eq_none]
        intro p hp
        simp only [List.mem_singleton] at hp
        subst hp
        simpa using fun h => hk2 h.symm
      rw [hone]
      cases m.find? (fun p => p.1 == k2) <;> rfl

theorem normalize_snoc (l : List String) (a : String) :
    normalize_column_names (l ++ [a]) = dictInsert (normalize_column_names l) (normKey a) a := by
  unfold normalize_column_names
  rw [List.foldl_append]
  rfl

theorem normalize_keys_nodup (cols : List String) :
    ((normalize_column_names cols).map Prod.fst).Nodup := by
  induction cols using List.reverseRecOn with
  | nil => simp [normalize_column_names]
  | append_singleton l a ih =>
    rw [normalize_snoc]
    exact dictInsert_keys_nodup _ _ _ ih

theorem normalize_lookup_last (cols : List String) :
    ∀ c ∈ cols, dictLookup (normalize_column_names cols) (normKey c) =
      cols.reverse.find? (fun c2 => normKey c2 == normKey c) := by
  induction cols using List.reverseRecOn with
  | nil => intro c hc; simp at hc
  | append_singleton l a ih =>
    intro c hc
    rw [normalize_snoc, dictLookup_insert]
    rw [List.reverse_append, List.reverse_singleton, List.singleton_append]
    by_cases hca : normKey c = normKey a
    · rw [if_pos hca]
      rw [List.find?_cons_of_pos _ (by simpa using hca.symm)]
    · rw [if_neg hca]
      rw [List.find?_cons_of_neg _ (by simpa using fun h => hca h.symm)]
      have hcl : c ∈ l := by
        rcases List.mem_append.mp hc with h | h
        · exact h
        · simp only [List.mem_singleton] at h
          exact absurd (by rw [h]) hca
      exact ih c hcl

/-- C6: for every list of column names, the normalized map's keys are
unique; looking up a column's normalized key returns the *last* column (in
table order) normalizing to that key — the defined-but-lossy collision
policy; and every original column name's normalized key is present in the
map (exactly one entry, by key uniqueness). -/
theorem C6_normalized_map (cols : List String) :
    ((normalize_column_names cols).map Prod.fst).Nodup ∧
    (∀ c ∈ cols,
        dictLookup (normalize_column_names cols) (normKey c) =
          cols.reverse.find? (fun c2 => normKey c2 == normKey c)) ∧
    (∀ c ∈ cols, dictLookup (normalize_column_names cols) (normKey c) ≠ none) := by
  refine ⟨normalize_keys_nodup cols, normalize_lookup_last cols, ?_⟩
  intro c hc
  rw [normalize_lookup_last cols c hc]
  intro hnone
  rw [List.find?_eq_none] at hnone
  exact hnone c (by simpa using hc) (by simp)

/-- C6 (witness): `Qty_new` and `Qty New` normalize to the same key, and the
lookup returns the later column, as the collision policy states. -/
theorem C6_witness :
    dictLookup (normalize_column_names ["Qty_new", "Qty New"]) (normKey "Qty_new") =
      ["Qty_new", "Qty New"].reverse.find? (fun c2 => normKey c2 == normKey "Qty_new") :=
  (C6_normalized_map ["Qty_new", "Qty New"]).2.1 "Qty_new" (by decide)

/-! ## C3: helper lemmas for the round-trip theorem -/

theorem splitCommaChars_cons (c : Char) (cs : List Char) :
    splitCommaChars (c :: cs) =
      if c == ',' then [] :: splitCommaChars cs
      else (c :: (splitCommaChars cs).headD []) :: (splitCommaChars cs).tail := rfl

theorem splitCommaChars_ne_nil (l : List Char) : splitCommaChars l ≠ [] := by
  induction l with
  | nil => simp [splitCommaChars]
  | cons c cs ih =>
    rw [splitCommaChars_cons]
    split <;> simp

